import Mathlib

/-!
Shallow embedding of the gratitude-journal application (src/src/App.tsx and
src/src/context/LanguageContext.tsx).

The source is a React single-page app.  Its meaningful state is:
  * `entries  : GratitudeEntry[]`   (useState, initially `[]` in the full
    variant; two seeded entries in the second variant),
  * `newEntry : { title, description, image, drawing }` (the draft),
  * `isAdding : boolean` (whether the add form is open),
  * `isDrawing : boolean` (pointer held down over the canvas),
  * `language : 'en' | 'th'` (in LanguageContext).
External inputs consumed at submit time are `Date.now()` (the id),
`new Date().toISOString().split('T')[0]` (the date string) and
`canvasRef.current?.toDataURL() || ''` (the canvas snapshot).  We pass these
as explicit parameters: `id : Nat`, `date : String`, and
`snap : Option String` (`none` when `canvasRef.current` is null).
-/

namespace Gratitude

/-- The two-valued language selector of LanguageContext.tsx
(`useState<'en' | 'th'>('en')`). -/
inductive Language where
  | en : Language
  | th : Language
deriving DecidableEq, Repr

/-- `toggleLanguage` from LanguageContext.tsx:
`const newLanguage = language === 'en' ? 'th' : 'en'`. -/
def toggleLanguage : Language → Language
  | Language.en => Language.th
  | Language.th => Language.en

/-- The draft being edited (`newEntry` state of the full variant):
`{ title: '', description: '', image: '', drawing: '' }`. -/
structure Draft where
  title : String
  description : String
  image : String
  drawing : String
deriving DecidableEq, Repr

/-- The reset value of the draft:
`setNewEntry({ title: '', description: '', image: '', drawing: '' })`. -/
def emptyDraft : Draft :=
  { title := "", description := "", image := "", drawing := "" }

/-- The `GratitudeEntry` interface of the full variant.  The TypeScript
fields `image?` and `drawing?` are optional, but every entry built by
`handleSubmit` carries both as strings (possibly empty: the rendering code
treats the empty string as absent via `entry.image &&` / `entry.drawing &&`),
so we embed them as `String`. -/
structure GratitudeEntry where
  id : Nat
  title : String
  description : String
  date : String
  image : String
  drawing : String
deriving DecidableEq, Repr

/-- JavaScript `String.prototype.trim()`: remove whitespace from both ends
of the string (kept kernel-executable, hence written over the character
list rather than through `String.trim`). -/
def jsTrim (s : String) : String :=
  String.mk
    (((s.data.dropWhile Char.isWhitespace).reverse.dropWhile
        Char.isWhitespace).reverse)

/-- The validation test of `handleSubmit`:
`if (newEntry.title.trim() && newEntry.description.trim())` — a JavaScript
string is truthy exactly when it is non-empty. -/
def draftValid (d : Draft) : Bool :=
  !(jsTrim d.title == "") && !(jsTrim d.description == "")

/-- The drawing payload of a new entry:
`canvasRef.current?.toDataURL() || ''`.  `none` models a null canvas ref
(the optional-chaining result `undefined`); the `|| ''` coerces both
`undefined` and an empty string (both falsy) to `''`. -/
def snapshotPayload : Option String → String
  | none => ""
  | some s => if s == "" then "" else s

/-- The entry literal built inside `handleSubmit`:
`{ ...newEntry, id: Date.now(), date: ..., drawing: canvasRef.current?.toDataURL() || '' }`.
The spread copies `title`, `description` and `image` from the draft verbatim;
`id`, `date` and `drawing` are overridden. -/
def mkEntry (d : Draft) (id : Nat) (date : String) (snap : Option String) :
    GratitudeEntry :=
  { id := id
    title := d.title
    description := d.description
    date := date
    image := d.image
    drawing := snapshotPayload snap }

/-- The React state of `AppContent` (full variant).  The canvas raster itself
lives outside React state and is modelled by the `snap` parameter passed to
`handleSubmit`. -/
structure AppState where
  entries : List GratitudeEntry
  newEntry : Draft
  isAdding : Bool
  isDrawing : Bool
deriving DecidableEq, Repr

/-- The initial state of the full variant: `useState<GratitudeEntry[]>([])`,
`useState({ title: '', description: '', image: '', drawing: '' })`,
`useState(false)`, `useState(false)`. -/
def initState : AppState :=
  { entries := [], newEntry := emptyDraft, isAdding := false, isDrawing := false }

/-- `handleSubmit` of the full variant: if the draft validates, prepend the
new entry (`setEntries([entry, ...entries])`), reset the draft and close the
form (`setIsAdding(false)`); otherwise nothing happens (the `if` has no else
branch). -/
def handleSubmit (s : AppState) (id : Nat) (date : String)
    (snap : Option String) : AppState :=
  if draftValid s.newEntry then
    { s with
      entries := mkEntry s.newEntry id date snap :: s.entries
      newEntry := emptyDraft
      isAdding := false }
  else
    s

/-- The user actions that mutate React state in the full variant.
`imageLoadEnd` is the `reader.onloadend` callback firing: `captured` is the
draft value the callback closed over when `handleImageChange` ran (file
selection time), `result` is `reader.result`.  `submit` carries the external
inputs read at submit time. -/
inductive Op where
  | openForm : Op
  | cancel : Op
  | setTitle : String → Op
  | setDescription : String → Op
  | imageLoadEnd : Draft → String → Op
  | mouseDown : Op
  | mouseUp : Op
  | submit : Nat → String → Option String → Op
deriving DecidableEq, Repr

/-- One user action applied to the state, from the source handlers:
`setIsAdding(true)` / `setIsAdding(false)` (add and cancel buttons),
`setNewEntry({ ...newEntry, title: e.target.value })`,
`setNewEntry({ ...newEntry, description: e.target.value })`,
`setNewEntry({ ...newEntry, image: reader.result })` — where `newEntry` here
is the stale draft captured by the `onloadend` closure, not the current one —
`setIsDrawing(true)` / `setIsDrawing(false)`, and `handleSubmit`. -/
def applyOp (s : AppState) : Op → AppState
  | Op.openForm => { s with isAdding := true }
  | Op.cancel => { s with isAdding := false }
  | Op.setTitle v => { s with newEntry := { s.newEntry with title := v } }
  | Op.setDescription v =>
      { s with newEntry := { s.newEntry with description := v } }
  | Op.imageLoadEnd captured result =>
      { s with newEntry := { captured with image := result } }
  | Op.mouseDown => { s with isDrawing := true }
  | Op.mouseUp => { s with isDrawing := false }
  | Op.submit id date snap => handleSubmit s id date snap

/-- A session: a sequence of user actions applied in order. -/
def runOps (s : AppState) : List Op → AppState
  | [] => s
  | op :: rest => runOps (applyOp s op) rest

/-- A successful-submission event: the draft the user has edited into place
together with the wall-clock id, the date string, and the canvas snapshot
read at submit time. -/
structure SubmitEvent where
  draft : Draft
  id : Nat
  date : String
  snap : Option String
deriving DecidableEq, Repr

/-- Submitting one event: the user edits the draft fields to `ev.draft`
(via the onChange handlers) and presses save, which runs `handleSubmit`. -/
def submitEvent (s : AppState) (ev : SubmitEvent) : AppState :=
  handleSubmit { s with newEntry := ev.draft } ev.id ev.date ev.snap

/-- A sequence of submissions applied in order. -/
def runSubmits (s : AppState) : List SubmitEvent → AppState
  | [] => s
  | ev :: rest => runSubmits (submitEvent s ev) rest

/-- The entry an event would create. -/
def entryOf (ev : SubmitEvent) : GratitudeEntry :=
  mkEntry ev.draft ev.id ev.date ev.snap

/-!
The second variant of App.tsx: no image/drawing support, and the entry list
is seeded with two example entries whose text depends on the language at
mount time.
-/

/-- The `GratitudeEntry` interface of the second variant (no `image`, no
`drawing`). -/
structure GratitudeEntry2 where
  id : Nat
  title : String
  description : String
  date : String
deriving DecidableEq, Repr

/-- The draft of the second variant: `{ title: '', description: '' }`. -/
structure Draft2 where
  title : String
  description : String
deriving DecidableEq, Repr

/-- The two seeded entries of the second variant's
`useState<GratitudeEntry[]>([...])` initializer, with the language-dependent
ternaries of the source. -/
def seededEntries (lang : Language) : List GratitudeEntry2 :=
  [ { id := 1
      title := if lang = Language.en then "Morning Sunshine" else "แสงแดดยามเช้า"
      description :=
        if lang = Language.en then
          "The way the sunlight filtered through the trees this morning was pure magic."
        else
          "วิธีที่แสงแดดส่องผ่านต้นไม้ในตอนเช้านี้เป็นสิ่งมหัศจรรย์ที่แท้จริง"
      date := "2023-11-15" }
  , { id := 2
      title := if lang = Language.en then "Unexpected Kindness" else "น้ำใจที่ไม่คาดคิด"
      description :=
        if lang = Language.en then
          "The barista remembered my usual order without asking. Small but meaningful connection."
        else
          "บาริสต้าจำออเดอร์ปกติของฉันได้โดยไม่ต้องถาม น้ำใจเล็กๆ ที่มีความหมายมาก"
      date := "2023-11-14" } ]

/-- The React state of the second variant's `AppContent`. -/
structure AppState2 where
  entries : List GratitudeEntry2
  newEntry : Draft2
  isAdding : Bool
deriving DecidableEq, Repr

/-- The initial state of the second variant: the seeded entry list, an empty
draft, form closed. -/
def initState2 (lang : Language) : AppState2 :=
  { entries := seededEntries lang
    newEntry := { title := "", description := "" }
    isAdding := false }

/-- The validation test of the second variant's `handleSubmit` (same shape as
the full variant's). -/
def draftValid2 (d : Draft2) : Bool :=
  !(jsTrim d.title == "") && !(jsTrim d.description == "")

/-- The entry literal of the second variant's `handleSubmit`:
`{ ...newEntry, id: Date.now(), date: new Date().toISOString().split('T')[0] }`. -/
def mkEntry2 (d : Draft2) (id : Nat) (date : String) : GratitudeEntry2 :=
  { id := id, title := d.title, description := d.description, date := date }

/-- `handleSubmit` of the second variant. -/
def handleSubmit2 (s : AppState2) (id : Nat) (date : String) : AppState2 :=
  if draftValid2 s.newEntry then
    { s with
      entries := mkEntry2 s.newEntry id date :: s.entries
      newEntry := { title := "", description := "" }
      isAdding := false }
  else
    s

/-- A successful-submission event of the second variant. -/
structure SubmitEvent2 where
  draft : Draft2
  id : Nat
  date : String
deriving DecidableEq, Repr

/-- Editing the draft to `ev.draft` and pressing save, second variant. -/
def submitEvent2 (s : AppState2) (ev : SubmitEvent2) : AppState2 :=
  handleSubmit2 { s with newEntry := ev.draft } ev.id ev.date

/-- A sequence of submissions applied in order, second variant. -/
def runSubmits2 (s : AppState2) : List SubmitEvent2 → AppState2
  | [] => s
  | ev :: rest => runSubmits2 (submitEvent2 s ev) rest

/-- The entries a session's submission events create, second variant. -/
def entriesOfEvents2 (evs : List SubmitEvent2) : List GratitudeEntry2 :=
  evs.map (fun ev => mkEntry2 ev.draft ev.id ev.date)

/-! Concrete sample values, used to instantiate the theorems below. -/

/-- A valid draft (the example of the spec's testable properties). -/
def sampleDraft : Draft :=
  { title := "Morning Sunshine", description := "Sunlight through trees."
    image := "", drawing := "" }

/-- A state with the add form open and `sampleDraft` edited in. -/
def sampleState : AppState :=
  { entries := [], newEntry := sampleDraft, isAdding := true, isDrawing := false }

/-- A state whose draft has a whitespace-only title (invalid). -/
def blankTitleState : AppState :=
  { entries := []
    newEntry := { title := "   ", description := "x", image := "", drawing := "" }
    isAdding := true
    isDrawing := false }

/-- A second valid draft. -/
def sampleDraftB : Draft :=
  { title := "Unexpected Kindness", description := "The barista remembered."
    image := "", drawing := "" }

/-- A valid draft whose fields carry surrounding whitespace. -/
def paddedDraft : Draft :=
  { title := " Morning Sunshine ", description := " Sunlight. "
    image := "", drawing := "" }

/-- A state with the add form just opened and an untouched (empty) draft. -/
def openFormState : AppState :=
  { entries := [], newEntry := emptyDraft, isAdding := true, isDrawing := false }

/-- A state with the add form open and `paddedDraft` edited in. -/
def paddedState : AppState :=
  { entries := [], newEntry := paddedDraft, isAdding := true, isDrawing := false }

/-- A first sample submission event. -/
def sampleEvent1 : SubmitEvent :=
  { draft := sampleDraft, id := 3, date := "2026-10-10", snap := none }

/-- A second sample submission event, later clock reading, with a canvas
snapshot. -/
def sampleEvent2 : SubmitEvent :=
  { draft := sampleDraftB, id := 5, date := "2026-10-11"
    snap := some "data:image/png;base64,AAAA" }

/-! Shared lemmas about the submit path. -/

/-- On a valid draft, `handleSubmit` prepends the new entry, resets the
draft, and closes the form. -/
lemma handleSubmit_of_valid (s : AppState) (id : Nat) (date : String)
    (snap : Option String) (h : draftValid s.newEntry = true) :
    handleSubmit s id date snap =
      { s with
        entries := mkEntry s.newEntry id date snap :: s.entries
        newEntry := emptyDraft
        isAdding := false } := by
  simp [handleSubmit, h]

/-- On an invalid draft, `handleSubmit` is the identity. -/
lemma handleSubmit_of_invalid (s : AppState) (id : Nat) (date : String)
    (snap : Option String) (h : draftValid s.newEntry = false) :
    handleSubmit s id date snap = s := by
  simp [handleSubmit, h]

/-- Submitting a valid event prepends exactly its entry. -/
lemma submitEvent_entries (s : AppState) (ev : SubmitEvent)
    (h : draftValid ev.draft = true) :
    (submitEvent s ev).entries = entryOf ev :: s.entries := by
  simp [submitEvent, handleSubmit, entryOf, h]

/-- A run of valid submissions yields the events' entries in reverse order,
prepended to the starting entries. -/
lemma runSubmits_entries (s : AppState) (evs : List SubmitEvent)
    (h : ∀ ev ∈ evs, draftValid ev.draft = true) :
    (runSubmits s evs).entries = (evs.map entryOf).reverse ++ s.entries := by
  induction evs generalizing s with
  | nil => simp [runSubmits]
  | cons ev rest ih =>
    have hev : draftValid ev.draft = true := h ev (by simp)
    have hrest : ∀ e ∈ rest, draftValid e.draft = true :=
      fun e he => h e (by simp [he])
    rw [runSubmits, ih (submitEvent s ev) hrest, submitEvent_entries s ev hev]
    simp

/-! The claims. -/

/-- C1: for every draft whose title and description are both non-empty after
trimming, `handleSubmit` produces exactly one new entry at the head of the
list (length grows by one) and resets the draft so that every draft field is
the empty string. -/
theorem submit_valid_creates_and_resets (s : AppState) (id : Nat)
    (date : String) (snap : Option String)
    (h : draftValid s.newEntry = true) :
    (handleSubmit s id date snap).entries =
        mkEntry s.newEntry id date snap :: s.entries ∧
    (handleSubmit s id date snap).entries.length = s.entries.length + 1 ∧
    (handleSubmit s id date snap).newEntry = emptyDraft ∧
    emptyDraft.title = "" ∧ emptyDraft.description = "" ∧
    emptyDraft.image = "" ∧ emptyDraft.drawing = "" := by
  rw [handleSubmit_of_valid s id date snap h]
  exact ⟨rfl, rfl, rfl, rfl, rfl, rfl, rfl⟩

/-- Witness for C1 at the spec's example draft. -/
theorem submit_valid_creates_and_resets_witness :
    draftValid sampleState.newEntry = true ∧
    ((handleSubmit sampleState 100 "2026-10-11" none).entries =
        mkEntry sampleState.newEntry 100 "2026-10-11" none ::
          sampleState.entries ∧
      (handleSubmit sampleState 100 "2026-10-11" none).entries.length =
        sampleState.entries.length + 1 ∧
      (handleSubmit sampleState 100 "2026-10-11" none).newEntry = emptyDraft ∧
      emptyDraft.title = "" ∧ emptyDraft.description = "" ∧
      emptyDraft.image = "" ∧ emptyDraft.drawing = "") :=
  ⟨by decide,
    submit_valid_creates_and_resets sampleState 100 "2026-10-11" none
      (by decide)⟩

/-- C2: for every draft whose title or description trims to empty,
`handleSubmit` leaves the whole state unchanged — same entry list, same
draft, and the add form stays open (`isAdding` untouched); nothing is
produced and no error is reported. -/
theorem submit_invalid_noop (s : AppState) (id : Nat) (date : String)
    (snap : Option String) (h : draftValid s.newEntry = false) :
    handleSubmit s id date snap = s := by
  simp [handleSubmit, h]

/-- Witness for C2 at a whitespace-only title. -/
theorem submit_invalid_noop_witness :
    draftValid blankTitleState.newEntry = false ∧
    handleSubmit blankTitleState 100 "2026-10-11" none = blankTitleState :=
  ⟨by decide, submit_invalid_noop blankTitleState 100 "2026-10-11" none
    (by decide)⟩

/-- Counterexample to C3: the cancel button only runs `setIsAdding(false)`;
with the sample draft edited in, cancelling leaves the draft exactly as it
was, and that draft is not the empty draft. -/
theorem cancel_keeps_draft_cex :
    (applyOp sampleState Op.cancel).newEntry = sampleDraft ∧
    sampleDraft ≠ emptyDraft :=
  ⟨rfl, by decide⟩

/-- C3 (amended): cancellation closes the add form and leaves both the draft
and the entry list unchanged; the draft is not reset on cancel. -/
theorem cancel_closes_form_keeps_draft (s : AppState) :
    (applyOp s Op.cancel).isAdding = false ∧
    (applyOp s Op.cancel).newEntry = s.newEntry ∧
    (applyOp s Op.cancel).entries = s.entries :=
  ⟨rfl, rfl, rfl⟩

/-- Witness for the amended C3 at the sample state. -/
theorem cancel_closes_form_keeps_draft_witness :
    (applyOp sampleState Op.cancel).isAdding = false ∧
    (applyOp sampleState Op.cancel).newEntry = sampleState.newEntry ∧
    (applyOp sampleState Op.cancel).entries = sampleState.entries :=
  cancel_closes_form_keeps_draft sampleState

/-- C5: `toggleLanguage` always changes the two-valued selector, is its own
inverse, and the selector ranges over exactly the two values. -/
theorem toggleLanguage_involutive (l : Language) :
    toggleLanguage (toggleLanguage l) = l ∧
    toggleLanguage l ≠ l ∧
    (l = Language.en ∨ l = Language.th) ∧
    toggleLanguage Language.en = Language.th ∧
    toggleLanguage Language.th = Language.en := by
  cases l <;> exact ⟨rfl, by decide, by decide, rfl, rfl⟩

/-- Witness for C5 at the initial selector value. -/
theorem toggleLanguage_involutive_witness :
    toggleLanguage (toggleLanguage Language.en) = Language.en ∧
    toggleLanguage Language.en ≠ Language.en ∧
    (Language.en = Language.en ∨ Language.en = Language.th) ∧
    toggleLanguage Language.en = Language.th ∧
    toggleLanguage Language.th = Language.en :=
  toggleLanguage_involutive Language.en

/-- C4: for every sequence of successful submissions, the entry list holds
the submitted entries in insertion order reversed — the most recently
submitted entry first — on top of whatever entries were already there. -/
theorem listEntries_newest_first (s : AppState) (evs : List SubmitEvent)
    (h : ∀ ev ∈ evs, draftValid ev.draft = true) :
    (runSubmits s evs).entries = (evs.map entryOf).reverse ++ s.entries :=
  runSubmits_entries s evs h

/-- Witness for C4 at two concrete submissions. -/
theorem listEntries_newest_first_witness :
    (∀ ev ∈ [sampleEvent1, sampleEvent2], draftValid ev.draft = true) ∧
    (runSubmits initState [sampleEvent1, sampleEvent2]).entries =
      ([sampleEvent1, sampleEvent2].map entryOf).reverse ++
        initState.entries :=
  ⟨by decide,
    listEntries_newest_first initState [sampleEvent1, sampleEvent2]
      (by decide)⟩

/-- Counterexample to C6: two successful submissions within the same
clock millisecond (`Date.now()` returning 5 twice) give two stored entries
with the same id — ids are not unique. -/
theorem duplicate_ids_cex :
    ((runSubmits initState
        [ { draft := sampleDraft, id := 5, date := "2024-01-01", snap := none }
        , { draft := sampleDraftB, id := 5, date := "2024-01-01",
            snap := none } ]).entries.map GratitudeEntry.id) = [5, 5] ∧
    ¬ ([5, 5] : List Nat).Nodup :=
  ⟨by decide, by decide⟩

/-- C6 (amended): every entry created by `handleSubmit` has as id the
`Date.now()` reading passed at submission, so the stored ids are exactly the
clock readings in reverse creation order; when the session's successive
readings are non-decreasing the stored ids are non-decreasing in creation
order (newest first, hence reverse-sorted in the list), and they are unique
only when the readings are strictly increasing. -/
theorem entry_ids_from_clock (evs : List SubmitEvent)
    (h : ∀ ev ∈ evs, draftValid ev.draft = true) :
    (runSubmits initState evs).entries.map GratitudeEntry.id =
        (evs.map SubmitEvent.id).reverse ∧
    (List.Chain' (fun a b => a ≤ b) (evs.map SubmitEvent.id) →
      List.Chain' (fun a b => b ≤ a)
        ((runSubmits initState evs).entries.map GratitudeEntry.id)) ∧
    (List.Chain' (fun a b => a < b) (evs.map SubmitEvent.id) →
      ((runSubmits initState evs).entries.map GratitudeEntry.id).Nodup) := by
  have hids : (runSubmits initState evs).entries.map GratitudeEntry.id =
      (evs.map SubmitEvent.id).reverse := by
    rw [runSubmits_entries initState evs h]
    simp [initState, entryOf, mkEntry]
  refine ⟨hids, ?_, ?_⟩
  · intro hc
    rw [hids, List.chain'_reverse]
    exact hc
  · intro hc
    rw [hids, List.nodup_reverse]
    exact (List.chain'_iff_pairwise.mp hc).imp Nat.ne_of_lt

/-- Witness for the amended C6 at two submissions with strictly increasing
clock readings. -/
theorem entry_ids_from_clock_witness :
    (∀ ev ∈ [sampleEvent1, sampleEvent2], draftValid ev.draft = true) ∧
    ((runSubmits initState [sampleEvent1, sampleEvent2]).entries.map
          GratitudeEntry.id =
        ([sampleEvent1, sampleEvent2].map SubmitEvent.id).reverse ∧
      (List.Chain' (fun a b => a ≤ b)
          ([sampleEvent1, sampleEvent2].map SubmitEvent.id) →
        List.Chain' (fun a b => b ≤ a)
          ((runSubmits initState [sampleEvent1, sampleEvent2]).entries.map
            GratitudeEntry.id)) ∧
      (List.Chain' (fun a b => a < b)
          ([sampleEvent1, sampleEvent2].map SubmitEvent.id) →
        ((runSubmits initState [sampleEvent1, sampleEvent2]).entries.map
            GratitudeEntry.id).Nodup)) :=
  ⟨by decide, entry_ids_from_clock [sampleEvent1, sampleEvent2] (by decide)⟩

/-- The entry list is touched by at most one kind of action: a valid submit
prepends one validated entry, every other action leaves it untouched. -/
lemma applyOp_entries (s : AppState) (op : Op) :
    (applyOp s op).entries = s.entries ∨
    ∃ d id date snap, draftValid d = true ∧
      (applyOp s op).entries = mkEntry d id date snap :: s.entries := by
  cases op with
  | submit id date snap =>
    by_cases h : draftValid s.newEntry = true
    · exact Or.inr ⟨s.newEntry, id, date, snap, h,
        by simp [applyOp, handleSubmit, h]⟩
    · exact Or.inl (by simp [applyOp, handleSubmit, h])
  | openForm => exact Or.inl rfl
  | cancel => exact Or.inl rfl
  | setTitle v => exact Or.inl rfl
  | setDescription v => exact Or.inl rfl
  | imageLoadEnd c r => exact Or.inl rfl
  | mouseDown => exact Or.inl rfl
  | mouseUp => exact Or.inl rfl

/-- C7 (amended): over any session, the entries present at the start are
still present, unchanged and in order, at the end (no action updates or
deletes an entry), and every entry added during the session was created by a
successful, validated submission. -/
theorem entries_creation_only (s : AppState) (ops : List Op) :
    ∃ t, (runOps s ops).entries = t ++ s.entries ∧
      ∀ e ∈ t, ∃ d id date snap, draftValid d = true ∧
        e = mkEntry d id date snap := by
  induction ops generalizing s with
  | nil => exact ⟨[], by simp [runOps], by simp⟩
  | cons op rest ih =>
    obtain ⟨t, ht, hp⟩ := ih (applyOp s op)
    rcases applyOp_entries s op with h0 | ⟨d, id, date, snap, hv, h0⟩
    · exact ⟨t, by rw [runOps, ht, h0], hp⟩
    · refine ⟨t ++ [mkEntry d id date snap], ?_, ?_⟩
      · rw [runOps, ht, h0]
        simp
      · intro e he
        rcases List.mem_append.mp he with hm | hm
        · exact hp e hm
        · exact ⟨d, id, date, snap, hv, by simpa using hm⟩

/-- Witness for the amended C7 at a concrete session. -/
theorem entries_creation_only_witness :
    ∃ t, (runOps sampleState [Op.openForm, Op.setTitle "Hi",
        Op.submit 9 "2026-10-11" none, Op.cancel]).entries =
        t ++ sampleState.entries ∧
      ∀ e ∈ t, ∃ d id date snap, draftValid d = true ∧
        e = mkEntry d id date snap :=
  entries_creation_only sampleState
    [Op.openForm, Op.setTitle "Hi", Op.submit 9 "2026-10-11" none, Op.cancel]

/-- Counterexample to C7 as stated: in the second variant the store already
holds two seeded entries after a session with zero submissions, which create
no entries — so not every stored entry was created via a successful draft
submission. -/
theorem seeded_entries_no_submission_cex :
    (runSubmits2 (initState2 Language.en) []).entries.length = 2 ∧
    entriesOfEvents2 ([] : List SubmitEvent2) = [] :=
  ⟨rfl, rfl⟩

/-- C8: on a successful submission the new head entry is built by `mkEntry`,
whose drawing field is the canvas snapshot when one is present (and
non-empty), and the empty payload — rendered as absent — when the canvas ref
is null. -/
theorem submit_captures_snapshot (s : AppState) (id : Nat) (date : String)
    (snap : Option String) (h : draftValid s.newEntry = true) :
    (handleSubmit s id date snap).entries.head? =
        some (mkEntry s.newEntry id date snap) ∧
    (mkEntry s.newEntry id date snap).drawing = snapshotPayload snap ∧
    (snap = none → (mkEntry s.newEntry id date snap).drawing = "") ∧
    (∀ p, snap = some p → ¬ p = "" →
      (mkEntry s.newEntry id date snap).drawing = p) := by
  refine ⟨?_, rfl, ?_, ?_⟩
  · rw [handleSubmit_of_valid s id date snap h]
    rfl
  · intro hn
    rw [show (mkEntry s.newEntry id date snap).drawing = snapshotPayload snap
      from rfl, hn]
    rfl
  · intro p hp hne
    rw [show (mkEntry s.newEntry id date snap).drawing = snapshotPayload snap
      from rfl, hp]
    simp [snapshotPayload, hne]

/-- Witness for C8 at a submission carrying a concrete snapshot. -/
theorem submit_captures_snapshot_witness :
    draftValid sampleState.newEntry = true ∧
    ((handleSubmit sampleState 100 "2026-10-11"
          (some "data:image/png;base64,AAAA")).entries.head? =
        some (mkEntry sampleState.newEntry 100 "2026-10-11"
          (some "data:image/png;base64,AAAA")) ∧
      (mkEntry sampleState.newEntry 100 "2026-10-11"
          (some "data:image/png;base64,AAAA")).drawing =
        snapshotPayload (some "data:image/png;base64,AAAA") ∧
      (some "data:image/png;base64,AAAA" = (none : Option String) →
        (mkEntry sampleState.newEntry 100 "2026-10-11"
          (some "data:image/png;base64,AAAA")).drawing = "") ∧
      (∀ p, some "data:image/png;base64,AAAA" = some p → ¬ p = "" →
        (mkEntry sampleState.newEntry 100 "2026-10-11"
          (some "data:image/png;base64,AAAA")).drawing = p)) :=
  ⟨by decide,
    submit_captures_snapshot sampleState 100 "2026-10-11"
      (some "data:image/png;base64,AAAA") (by decide)⟩

/-- Counterexample to C9: the file is picked while the draft is empty (the
`onloadend` closure captures that empty draft), the user then types the
title, and when the read completes the whole draft is overwritten with the
captured one plus the image — the typed title is lost, not preserved. -/
theorem image_load_clobbers_text_cex :
    (applyOp (applyOp openFormState (Op.setTitle "Morning Sunshine"))
        (Op.imageLoadEnd openFormState.newEntry
          "data:image/png;base64,AAAA")).newEntry =
      { title := "", description := "", image := "data:image/png;base64,AAAA"
        drawing := "" } ∧
    (applyOp openFormState
      (Op.setTitle "Morning Sunshine")).newEntry.title = "Morning Sunshine" ∧
    ("" : String) ≠ "Morning Sunshine" :=
  ⟨rfl, rfl, by decide⟩

/-- C9 (amended): each synchronous draft edit overwrites exactly its one
field and leaves the other draft fields and the entry list unchanged; the
asynchronous image-read completion instead replaces the whole draft by the
draft captured at file-selection time with only its image field set — any
text entered in between reverts to the captured values. -/
theorem draft_updates_single_field (s : AppState) (v : String)
    (captured : Draft) (result : String) :
    ((applyOp s (Op.setTitle v)).newEntry.title = v ∧
      (applyOp s (Op.setTitle v)).newEntry.description =
        s.newEntry.description ∧
      (applyOp s (Op.setTitle v)).newEntry.image = s.newEntry.image ∧
      (applyOp s (Op.setTitle v)).newEntry.drawing = s.newEntry.drawing ∧
      (applyOp s (Op.setTitle v)).entries = s.entries) ∧
    ((applyOp s (Op.setDescription v)).newEntry.description = v ∧
      (applyOp s (Op.setDescription v)).newEntry.title = s.newEntry.title ∧
      (applyOp s (Op.setDescription v)).newEntry.image = s.newEntry.image ∧
      (applyOp s (Op.setDescription v)).newEntry.drawing =
        s.newEntry.drawing ∧
      (applyOp s (Op.setDescription v)).entries = s.entries) ∧
    ((applyOp s (Op.imageLoadEnd captured result)).newEntry =
        { captured with image := result } ∧
      (applyOp s (Op.imageLoadEnd captured result)).entries = s.entries) :=
  ⟨⟨rfl, rfl, rfl, rfl, rfl⟩, ⟨rfl, rfl, rfl, rfl, rfl⟩, rfl, rfl⟩

/-- Witness for the amended C9 at concrete values. -/
theorem draft_updates_single_field_witness :
    (((applyOp sampleState (Op.setTitle "Hi")).newEntry.title = "Hi" ∧
      (applyOp sampleState (Op.setTitle "Hi")).newEntry.description =
        sampleState.newEntry.description ∧
      (applyOp sampleState (Op.setTitle "Hi")).newEntry.image =
        sampleState.newEntry.image ∧
      (applyOp sampleState (Op.setTitle "Hi")).newEntry.drawing =
        sampleState.newEntry.drawing ∧
      (applyOp sampleState (Op.setTitle "Hi")).entries =
        sampleState.entries) ∧
    ((applyOp sampleState (Op.setDescription "Hi")).newEntry.description =
        "Hi" ∧
      (applyOp sampleState (Op.setDescription "Hi")).newEntry.title =
        sampleState.newEntry.title ∧
      (applyOp sampleState (Op.setDescription "Hi")).newEntry.image =
        sampleState.newEntry.image ∧
      (applyOp sampleState (Op.setDescription "Hi")).newEntry.drawing =
        sampleState.newEntry.drawing ∧
      (applyOp sampleState (Op.setDescription "Hi")).entries =
        sampleState.entries) ∧
    ((applyOp sampleState
          (Op.imageLoadEnd emptyDraft "img")).newEntry =
        { emptyDraft with image := "img" } ∧
      (applyOp sampleState (Op.imageLoadEnd emptyDraft "img")).entries =
        sampleState.entries)) :=
  draft_updates_single_field sampleState "Hi" emptyDraft "img"

/-- C10: on a successful submission, the stored entry's title and
description are the draft's values verbatim, surrounding whitespace
included — trimming is used only in the validation test. -/
theorem submit_stores_untrimmed (s : AppState) (id : Nat) (date : String)
    (snap : Option String) (h : draftValid s.newEntry = true) :
    (handleSubmit s id date snap).entries.head? =
        some (mkEntry s.newEntry id date snap) ∧
    (mkEntry s.newEntry id date snap).title = s.newEntry.title ∧
    (mkEntry s.newEntry id date snap).description =
      s.newEntry.description := by
  refine ⟨?_, rfl, rfl⟩
  rw [handleSubmit_of_valid s id date snap h]
  rfl

/-- Witness for C10 at a draft whose fields carry surrounding whitespace:
the stored fields keep it. -/
theorem submit_stores_untrimmed_witness :
    draftValid paddedState.newEntry = true ∧
    ((handleSubmit paddedState 100 "2026-10-11" none).entries.head? =
        some (mkEntry paddedState.newEntry 100 "2026-10-11" none) ∧
      (mkEntry paddedState.newEntry 100 "2026-10-11" none).title =
        paddedState.newEntry.title ∧
      (mkEntry paddedState.newEntry 100 "2026-10-11" none).description =
        paddedState.newEntry.description) :=
  ⟨by decide,
    submit_stores_untrimmed paddedState 100 "2026-10-11" none (by decide)⟩

end Gratitude
